import Mathlib

/-!
Shallow embedding of the nebula daemon's core subsystems:
the metrics collector (internal/metrics), the WebSocket hub
(internal/websocket/hub.go) and the terminal session manager
(internal/terminal), together with theorems about their behaviour.

Go `float64` fields are modelled as `Rat` (the code only copies them, never
computes with them), `time.Time` as a `Nat` tick value, byte strings as
`List Nat`, and Go maps as association lists whose keys are kept distinct by
the operations themselves.
-/

namespace Nebula

/-! ## Metrics data model (internal/metrics, type declarations) -/

/-- Embeds `metrics.SystemInfo`. -/
structure SystemInfo where
  hostname : String
  os : String
  platform : String
  platformVersion : String
  kernelVersion : String
  kernelArch : String
  uptime : Nat
  bootTime : Nat
  numCPU : Int
deriving DecidableEq

/-- The Go zero value of `metrics.SystemInfo`. -/
def SystemInfo.zero : SystemInfo :=
  ⟨"", "", "", "", "", "", 0, 0, 0⟩

/-- Embeds `metrics.CPUInfo`. -/
structure CPUInfo where
  cores : Int
  modelName : String
  mhz : Rat
  usagePercent : List Rat
  totalPercent : Rat
deriving DecidableEq

/-- The Go zero value of `metrics.CPUInfo` (`nil` slice modelled as `[]`). -/
def CPUInfo.zero : CPUInfo :=
  ⟨0, "", 0, [], 0⟩

/-- Embeds `metrics.MemoryInfo`. -/
structure MemoryInfo where
  total : Nat
  used : Nat
  free : Nat
  available : Nat
  usedPercent : Rat
  swapTotal : Nat
  swapUsed : Nat
  swapFree : Nat
deriving DecidableEq

/-- The Go zero value of `metrics.MemoryInfo`. -/
def MemoryInfo.zero : MemoryInfo :=
  ⟨0, 0, 0, 0, 0, 0, 0, 0⟩

/-- Embeds `metrics.DiskInfo`. -/
structure DiskInfo where
  device : String
  mountpoint : String
  fstype : String
  total : Nat
  used : Nat
  free : Nat
  usedPercent : Rat
deriving DecidableEq

/-- Embeds `metrics.NetworkInfo`. -/
structure NetworkInfo where
  name : String
  bytesSent : Nat
  bytesRecv : Nat
  packetsSent : Nat
  packetsRecv : Nat
  errin : Nat
  errout : Nat
deriving DecidableEq

/-- Embeds `metrics.AllMetrics`. -/
structure AllMetrics where
  timestamp : Nat
  system : SystemInfo
  cpu : CPUInfo
  memory : MemoryInfo
  disks : List DiskInfo
  network : List NetworkInfo
deriving DecidableEq

/-- The Go zero value of `metrics.AllMetrics` (zero timestamp, zero sections,
`nil` slices modelled as `[]`). -/
def AllMetrics.zero : AllMetrics :=
  ⟨0, SystemInfo.zero, CPUInfo.zero, MemoryInfo.zero, [], []⟩

/-! ## Storage entries (internal/storage types used by `Collector.collect`) -/

/-- Embeds `storage.CPUMetrics`. -/
structure CPUMetrics where
  usagePercent : List Rat
  totalPercent : Rat
deriving DecidableEq

/-- Embeds `storage.MemMetrics`. -/
structure MemMetrics where
  total : Nat
  used : Nat
  free : Nat
  usedPercent : Rat
  swapTotal : Nat
  swapUsed : Nat
  swapFree : Nat
deriving DecidableEq

/-- Embeds `storage.DiskInfo` (the persisted projection of a disk record). -/
structure StorageDiskInfo where
  device : String
  mountpoint : String
  fstype : String
  total : Nat
  used : Nat
  free : Nat
  usedPercent : Rat
deriving DecidableEq

/-- Embeds `storage.NetInfo` (note: no error counters are persisted). -/
structure StorageNetInfo where
  name : String
  bytesSent : Nat
  bytesRecv : Nat
  packetsSent : Nat
  packetsRecv : Nat
deriving DecidableEq

/-- Embeds `storage.MetricsEntry`. -/
structure MetricsEntry where
  timestamp : Nat
  cpu : CPUMetrics
  memory : MemMetrics
  disk : List StorageDiskInfo
  network : List StorageNetInfo
deriving DecidableEq

/-! ## The collector (internal/metrics, `Collector`) -/

/-- A subscriber channel of `Collector.Subscribe`: a bounded buffered channel
(capacity 10 in `Subscribe`), modelled as the list of buffered values plus its
capacity. -/
structure MetricsSub where
  queue : List AllMetrics
  cap : Nat
deriving DecidableEq

/-- Embeds `metrics.Collector`'s state: the retained history, the optional
storage backend (modelled by a presence flag plus the list of persisted
entries), and the subscriber channels. -/
structure Collector where
  hasStorage : Bool
  stored : List MetricsEntry
  interval : Nat
  history : List AllMetrics
  histSize : Nat
  subscribers : List MetricsSub
deriving DecidableEq

/-- Embeds `metrics.NewCollector`. -/
def NewCollector (hasStorage : Bool) (interval histSize : Nat) : Collector :=
  ⟨hasStorage, [], interval, [], histSize, []⟩

/-- One collection tick's inputs: the clock reading (`time.Now()`) and the
results of the five sub-collections (`GetSystemInfo`, `GetCPUInfo`,
`GetMemoryInfo`, `GetDiskInfo`, `GetNetworkInfo`), each of which may fail
with an error coming from the OS probing library. -/
structure TickInput where
  now : Nat
  sysR : Except String SystemInfo
  cpuR : Except String CPUInfo
  memR : Except String MemoryInfo
  diskR : Except String (List DiskInfo)
  netR : Except String (List NetworkInfo)

/-- The snapshot built at the top of `Collector.collect`: each section is
filled in only when its sub-collection returned without error (`err == nil`),
and otherwise stays at its Go zero value. -/
def mkMetrics (t : TickInput) : AllMetrics where
  timestamp := t.now
  system := match t.sysR with | .ok v => v | .error _ => SystemInfo.zero
  cpu := match t.cpuR with | .ok v => v | .error _ => CPUInfo.zero
  memory := match t.memR with | .ok v => v | .error _ => MemoryInfo.zero
  disks := match t.diskR with | .ok v => v | .error _ => []
  network := match t.netR with | .ok v => v | .error _ => []

/-- The `storage.MetricsEntry` that `Collector.collect` builds from a
snapshot before calling `storage.AddMetricsEntry`. -/
def toEntry (m : AllMetrics) : MetricsEntry where
  timestamp := m.timestamp
  cpu := ⟨m.cpu.usagePercent, m.cpu.totalPercent⟩
  memory := ⟨m.memory.total, m.memory.used, m.memory.free, m.memory.usedPercent,
             m.memory.swapTotal, m.memory.swapUsed, m.memory.swapFree⟩
  disk := m.disks.map fun d =>
    ⟨d.device, d.mountpoint, d.fstype, d.total, d.used, d.free, d.usedPercent⟩
  network := m.network.map fun n =>
    ⟨n.name, n.bytesSent, n.bytesRecv, n.packetsSent, n.packetsRecv⟩

/-- The non-blocking send of `Collector.notifySubscribers`: a `select` with a
`default` branch, i.e. enqueue when the buffered channel has room, silently
skip otherwise. -/
def MetricsSub.trySend (s : MetricsSub) (m : AllMetrics) : MetricsSub :=
  if s.queue.length < s.cap then { s with queue := s.queue ++ [m] } else s

/-- The history update inside `Collector.collect`: append, then evict the
oldest entry when the length exceeds the configured size
(`history = history[1:]`). -/
def histStep (hSize : Nat) (h : List AllMetrics) (m : AllMetrics) : List AllMetrics :=
  let a := h ++ [m]
  if hSize < a.length then a.drop 1 else a

/-- Embeds `Collector.collect`: build the (possibly partial) snapshot,
append it to the history evicting the oldest entry on overflow,
persist a `MetricsEntry` when a storage backend is present, and notify every
subscriber non-blockingly. -/
def Collector.collectStep (c : Collector) (t : TickInput) : Collector :=
  let m := mkMetrics t
  { c with
    history := histStep c.histSize c.history m
    stored := if c.hasStorage then c.stored ++ [toEntry m] else c.stored
    subscribers := c.subscribers.map (fun s => s.trySend m) }

/-- A run of the collection loop (`Collector.Start`): one `collect` per tick. -/
def Collector.ticks (c : Collector) (ts : List TickInput) : Collector :=
  ts.foldl Collector.collectStep c

/-- Embeds `Collector.GetLatest`: the zero snapshot when the history is
empty, otherwise the last (most recent) entry. -/
def Collector.GetLatest (c : Collector) : AllMetrics :=
  match c.history.getLast? with
  | none => AllMetrics.zero
  | some m => m

/-- Embeds `Collector.GetHistory` (the Go code returns a copy; in the value
model that is the history itself). -/
def Collector.GetHistory (c : Collector) : List AllMetrics :=
  c.history

/-- A concrete tick whose five sub-collections all fail, used to instantiate
theorems at concrete inputs. -/
def failTick (n : Nat) : TickInput :=
  ⟨n, .error "probe", .error "probe", .error "probe", .error "probe", .error "probe"⟩

/-- A concrete collector with a storage backend and one empty subscriber
channel of capacity 10, used to instantiate theorems. -/
def sampleCollector : Collector :=
  ⟨true, [], 1, [], 2, [⟨[], 10⟩]⟩

/-! ## The WebSocket hub (internal/websocket/hub.go) -/

/-- Embeds a `websocket.Client` as seen by the hub: the Go value lives behind
a pointer, modelled by a unique `ptr` token; `sendQ` models the contents of
the buffered `send` channel and `cap` its capacity (256 at construction). -/
structure HClient where
  ptr : Nat
  id : String
  sendQ : List (List Nat)
  cap : Nat
deriving DecidableEq

/-- Embeds the hub's mutable state: the registered client set (`clients` map)
plus the list of `ptr` tokens whose send channel has been closed by
`close(client.send)`. -/
structure HubState where
  clients : List HClient
  closedChans : List Nat
deriving DecidableEq

/-- Embeds `websocket.NewHub`: empty client set, nothing closed yet. -/
def NewHub : HubState := ⟨[], []⟩

/-- The non-blocking delivery attempt in `Hub.Run`'s broadcast arm: the
`select`/`default` send to `client.send`. Returns the updated client and
whether the message was accepted. -/
def HClient.trySend (c : HClient) (msg : List Nat) : HClient × Bool :=
  if c.sendQ.length < c.cap then ({ c with sendQ := c.sendQ ++ [msg] }, true)
  else (c, false)

/-- Embeds the `register` arm of `Hub.Run`: `h.clients[client] = true`
(a map insert, hence a no-op when the same pointer is already present). -/
def HubState.registerStep (h : HubState) (c : HClient) : HubState :=
  if h.clients.any (fun x => x.ptr = c.ptr) then h
  else { h with clients := h.clients ++ [c] }

/-- Embeds the `unregister` arm of `Hub.Run`: when the client is present it
is deleted from the map and its send channel closed, in the same critical
section; when absent nothing happens (in particular the channel is not
closed a second time). -/
def HubState.unregisterStep (h : HubState) (p : Nat) : HubState :=
  if h.clients.any (fun x => x.ptr = p) then
    { clients := h.clients.filter (fun x => x.ptr ≠ p)
      closedChans := h.closedChans ++ [p] }
  else h

/-- Embeds the `broadcast` arm of `Hub.Run`: a non-blocking send to every
registered client; clients whose channel is full keep their queue unchanged
and are scheduled for asynchronous unregistration (the spawned goroutine that
sends them to `h.unregister`). Returns the new state and the scheduled
pointers. -/
def HubState.broadcastStep (h : HubState) (msg : List Nat) : HubState × List Nat :=
  let results := h.clients.map (fun c => c.trySend msg)
  ({ h with clients := results.map Prod.fst },
   (results.filter (fun r => r.2 = false)).map (fun r => r.1.ptr))

/-- The hub invariant of the spec: every client present in the set has an
open (never-closed) send channel. -/
def HubState.ChanInv (h : HubState) : Prop :=
  ∀ c ∈ h.clients, c.ptr ∉ h.closedChans

/-- A sample hub with two registered clients: client 1 has a full queue
(capacity 1, one buffered message), client 2 has room. -/
def sampleHub : HubState :=
  ⟨[⟨1, "slow", [[0]], 1⟩, ⟨2, "fast", [], 4⟩], []⟩

/-! ## WebSocket read/write pumps (hub.go, `Client.readPump` / `Client.writePump`) -/

/-- The read-deadline window: `SetReadDeadline(time.Now().Add(60 * time.Second))`. -/
def readDeadlineSeconds : Nat := 60

/-- The `writePump` ticker period: `time.NewTicker(30 * time.Second)`. -/
def pingIntervalSeconds : Nat := 30

/-- The per-write deadline: `SetWriteDeadline(time.Now().Add(10 * time.Second))`. -/
def writeWaitSeconds : Nat := 10

/-- The connection state tracked by `readPump`: the absolute read deadline,
and whether the pump has exited — its deferred block unregisters the client
from the hub and closes the connection. -/
structure ConnState where
  readDeadline : Nat
  unregistered : Bool
  connClosed : Bool
deriving DecidableEq

/-- Events seen by `readPump`: a successful data-frame read, a received
protocol pong (handled by the registered pong handler), or a read error —
which is also how expiry of the read deadline surfaces. -/
inductive ReadEv where
  | dataRead (t : Nat)
  | pong (t : Nat)
  | readError (t : Nat)
deriving DecidableEq

/-- `readPump` entry: the initial `SetReadDeadline` 60 seconds after the
connection is set up at time `t`. -/
def readPumpInit (t : Nat) : ConnState :=
  ⟨t + readDeadlineSeconds, false, false⟩

/-- One `readPump` iteration. The pong handler refreshes the read deadline;
a plain successful read leaves the deadline untouched (the loop body only
parses and logs the message); a read error breaks the loop, whose deferred
block sends the client to `hub.unregister` and closes the connection. -/
def readPumpStep (s : ConnState) (e : ReadEv) : ConnState :=
  match e with
  | .dataRead _ => s
  | .pong t => { s with readDeadline := t + readDeadlineSeconds }
  | .readError _ => { s with unregistered := true, connClosed := true }

/-- A run of `readPump` from connect time `t0` over a sequence of events. -/
def readPumpRun (t0 : Nat) (es : List ReadEv) : ConnState :=
  es.foldl readPumpStep (readPumpInit t0)

/-- Frames `writePump` can emit. -/
inductive WsFrame where
  | ping
  | closeFrame
  | batch (msgs : List (List Nat))
deriving DecidableEq

/-- The ticker arm of `writePump`: on each ticker fire it sets a write
deadline `writeWaitSeconds` ahead and emits a protocol-level ping frame. -/
def writePumpOnTick (t : Nat) : WsFrame × Nat :=
  (.ping, t + writeWaitSeconds)

/-- The times at which `writePump`'s ticker fires (`time.NewTicker` created
at connect time `t0`): the `n`-th fire is `pingIntervalSeconds * (n+1)`
seconds in. -/
def writePumpTickTime (t0 n : Nat) : Nat :=
  t0 + pingIntervalSeconds * (n + 1)

/-! ## Terminal sessions (internal/terminal) -/

/-- The terminal error values, named after the `fmt.Errorf` messages of
manager.go (`maximum sessions reached`, `session already exists`,
`shell not allowed: %s`, `session not found`), plus `io.EOF` and spawn
failures surfaced by the platform layer. -/
inductive TermErr where
  | maxSessionsReached
  | sessionAlreadyExists
  | shellNotAllowed (shell : String)
  | sessionNotFound
  | eof
  | spawnFailed (msg : String)
deriving DecidableEq

/-- The PTY behind a session. `pending` is the byte stream still readable
(it ends when the process has exited and its output is drained), `written`
collects the bytes written, and the call counters record whether the PTY
was touched at all. Reads and writes follow the spec's PTY contract: a read
returns buffered bytes, and end-of-stream once the process has exited and
the stream is drained, instead of blocking. -/
structure PtySim where
  pending : List Nat
  written : List Nat
  readCalls : Nat
  writeCalls : Nat
  isClosed : Bool
deriving DecidableEq

/-- A PTY read: consume up to `bufLen` buffered bytes, end-of-stream when
nothing remains. -/
def PtySim.read (p : PtySim) (bufLen : Nat) : (Nat × Option TermErr) × PtySim :=
  let p1 := { p with readCalls := p.readCalls + 1 }
  if p.pending = [] then ((0, some .eof), p1)
  else
    let n := min bufLen p.pending.length
    ((n, none), { p1 with pending := p.pending.drop n })

/-- A PTY write: record the bytes. -/
def PtySim.write (p : PtySim) (data : List Nat) :
    (Nat × Option TermErr) × PtySim :=
  ((data.length, none),
   { p with writeCalls := p.writeCalls + 1, written := p.written ++ data })

/-- Embeds `terminal.Session`: id, shell, the child process handle
(modelled by a presence flag plus a counter of `Process.Kill` calls), the
PTY, and the lock-guarded closed flag. -/
structure TSession where
  id : String
  shell : String
  hasProcess : Bool
  kills : Nat
  pty : PtySim
  closed : Bool
deriving DecidableEq

/-- Embeds `Session.IsClosed`. -/
def TSession.IsClosed (s : TSession) : Bool := s.closed

instance {ε α : Type} [DecidableEq ε] [DecidableEq α] :
    DecidableEq (Except ε α) := fun x y =>
  match x, y with
  | .error a, .error b =>
    if h : a = b then .isTrue (h ▸ rfl)
    else .isFalse (fun hh => h (Except.error.inj hh))
  | .ok a, .ok b =>
    if h : a = b then .isTrue (h ▸ rfl)
    else .isFalse (fun hh => h (Except.ok.inj hh))
  | .error _, .ok _ => .isFalse (fun hh => Except.noConfusion hh)
  | .ok _, .error _ => .isFalse (fun hh => Except.noConfusion hh)

/-- Embeds `Session.Close`: when the closed flag is already set it returns
`nil` at once, leaving everything (in particular the kill counter)
untouched; the first call sets the flag, kills the child process when there
is one, and closes the PTY descriptor. -/
def TSession.close (s : TSession) : Option TermErr × TSession :=
  if s.closed then (none, s)
  else
    (none,
     { s with
       closed := true
       kills := if s.hasProcess then s.kills + 1 else s.kills
       pty := { s.pty with isClosed := true } })

/-- Embeds `Session.Read`: `io.EOF` without touching the PTY when the
closed flag is set, a pass-through PTY read otherwise. -/
def TSession.read (s : TSession) (bufLen : Nat) :
    (Nat × Option TermErr) × TSession :=
  if s.IsClosed then ((0, some .eof), s)
  else
    let r := s.pty.read bufLen
    (r.1, { s with pty := r.2 })

/-- Embeds `Session.Write`: `io.EOF` without touching the PTY when the
closed flag is set, a pass-through PTY write otherwise. -/
def TSession.write (s : TSession) (data : List Nat) :
    (Nat × Option TermErr) × TSession :=
  if s.IsClosed then ((0, some .eof), s)
  else
    let r := s.pty.write data
    (r.1, { s with pty := r.2 })

/-- The ambient environment of shell resolution: `exec.LookPath` (`none`
models a lookup error) and whether `runtime.GOOS` is `windows`. -/
structure ShellEnv where
  lookPath : String → Option String
  isWindows : Bool

/-- Embeds `terminal.Manager`: the session registry (a map keyed by session
id), the cap and the shell configuration. -/
structure TManager where
  sessions : List (String × TSession)
  maxSessions : Nat
  allowedShells : List String
  defaultShell : String
deriving DecidableEq

/-- Embeds `terminal.NewManager`. -/
def NewTManager (maxSessions : Nat) (allowedShells : List String)
    (defaultShell : String) : TManager :=
  ⟨[], maxSessions, allowedShells, defaultShell⟩

/-- Embeds the `lastIndex` helper of manager.go: the last index of `c`, or
`none` where the Go code returns `-1`. -/
def lastIdx : List Char → Char → Option Nat
  | [], _ => none
  | a :: rest, c =>
    match lastIdx rest c with
    | some i => some (i + 1)
    | none => if a = c then some 0 else none

/-- The base-name extraction inside `Manager.IsShellAllowed`: the part
after the last `/`, then — recomputed from the original string — the part
after the last backslash, the latter taking precedence. -/
def baseNameOf (shell : String) : String :=
  let b1 := match lastIdx shell.toList '/' with
    | some i => String.mk (shell.toList.drop (i + 1))
    | none => shell
  match lastIdx shell.toList '\\' with
  | some i => String.mk (shell.toList.drop (i + 1))
  | none => b1

/-- Embeds `Manager.IsShellAllowed`: allowed when some allow-list entry
matches the shell exactly or matches its base name. -/
def TManager.IsShellAllowed (m : TManager) (shell : String) : Bool :=
  m.allowedShells.any (fun allowed => shell = allowed || baseNameOf shell = allowed)

/-- Embeds `Manager.GetDefaultShell`: the configured default when it is set
and found on PATH; otherwise the first shell of the OS-specific fallback
list found on PATH; otherwise the empty string. -/
def TManager.GetDefaultShell (m : TManager) (env : ShellEnv) : String :=
  match (if m.defaultShell = "" then none else env.lookPath m.defaultShell) with
  | some path => path
  | none =>
    let order := if env.isWindows then ["powershell", "cmd"] else ["bash", "sh"]
    (order.findSome? env.lookPath).getD ""

/-- Embeds `Manager.CreateSession`: capacity check first, then the
duplicate-id check, then default-shell resolution for an empty shell, then
the allow-list check, and finally the platform spawn (`newPlatformSession`,
passed in as `spawn`); only on success is the session registered. -/
def TManager.CreateSession (m : TManager) (env : ShellEnv)
    (spawn : String → String → Nat → Nat → Except TermErr TSession)
    (id shell : String) (cols rows : Nat) :
    Except TermErr TSession × TManager :=
  if m.maxSessions ≤ m.sessions.length then (.error .maxSessionsReached, m)
  else if (m.sessions.lookup id).isSome then (.error .sessionAlreadyExists, m)
  else
    let shell1 := if shell = "" then m.GetDefaultShell env else shell
    if m.IsShellAllowed shell1 = false then (.error (.shellNotAllowed shell1), m)
    else
      match spawn id shell1 cols rows with
      | .error e => (.error e, m)
      | .ok s => (.ok s, { m with sessions := m.sessions ++ [(id, s)] })

/-- Embeds `Manager.GetSession`. -/
def TManager.GetSession (m : TManager) (id : String) : Option TSession :=
  m.sessions.lookup id

/-- Go's `delete(m.sessions, id)` on the registry. -/
def removeKey (l : List (String × TSession)) (id : String) :
    List (String × TSession) :=
  l.filter (fun kv => kv.1 ≠ id)

/-- Embeds `Manager.CloseSession`: `session not found` when the id is not
registered, otherwise `session.Close()` followed by deletion from the
registry. The second component of the result is the closed session object
(still referenced by the WebSocket bridge in the Go code), reported for
observation; it does not flow back into the registry. -/
def TManager.CloseSession (m : TManager) (id : String) :
    (Option TermErr × TManager) × Option TSession :=
  match m.sessions.lookup id with
  | none => ((some .sessionNotFound, m), none)
  | some s =>
    ((none, { m with sessions := removeKey m.sessions id }), some s.close.2)

/-- A concrete open session used to instantiate theorems. -/
def sampleSession : TSession :=
  ⟨"s1", "/bin/bash", true, 0, ⟨[], [], 0, 0, false⟩, false⟩

/-- A concrete manager at capacity 1 holding `sampleSession`. -/
def sampleManager : TManager :=
  ⟨[("s1", sampleSession)], 1, ["bash"], ""⟩

/-- A shell environment where nothing is on PATH, on a Unix system. -/
def emptyEnv : ShellEnv := ⟨fun _ => none, false⟩

/-- A shell environment where `bash` and `sh` resolve, on a Unix system. -/
def unixEnv : ShellEnv :=
  ⟨fun s => if s = "bash" then some "/bin/bash"
            else if s = "sh" then some "/bin/sh" else none, false⟩

/-- A platform spawn that always succeeds, returning a fresh open session
carrying the requested id and shell. -/
def okSpawn : String → String → Nat → Nat → Except TermErr TSession :=
  fun id shell _ _ => .ok ⟨id, shell, true, 0, ⟨[], [], 0, 0, false⟩, false⟩

/-- A concrete manager with spare capacity and `bash` as the only allowed
shell. -/
def roomManager : TManager := ⟨[], 2, ["bash"], ""⟩

/-! ## Theorems: history ring behaviour -/

theorem histStep_eq_drop (hSize : Nat) (h : List AllMetrics) (m : AllMetrics)
    (hh : h.length ≤ hSize) :
    histStep hSize h m = (h ++ [m]).drop (h.length + 1 - hSize) := by
  simp only [histStep]
  rcases Nat.lt_or_ge hSize (h ++ [m]).length with hc | hc
  · rw [if_pos hc]
    have h1 : h.length + 1 - hSize = 1 := by
      simp only [List.length_append, List.length_singleton] at hc; omega
    rw [h1]
  · rw [if_neg (Nat.not_lt.mpr hc)]
    have h0 : h.length + 1 - hSize = 0 := by
      simp only [List.length_append, List.length_singleton] at hc; omega
    rw [h0, List.drop_zero]

theorem collectStep_history (c : Collector) (t : TickInput) :
    (c.collectStep t).history = histStep c.histSize c.history (mkMetrics t) := rfl

theorem collectStep_histSize (c : Collector) (t : TickInput) :
    (c.collectStep t).histSize = c.histSize := rfl

theorem NewCollector_history (hs : Bool) (iv H : Nat) :
    (NewCollector hs iv H).history = [] := rfl

theorem NewCollector_histSize (hs : Bool) (iv H : Nat) :
    (NewCollector hs iv H).histSize = H := rfl

theorem ticks_history (ts : List TickInput) :
    ∀ c : Collector, c.history.length ≤ c.histSize →
      (c.ticks ts).history =
        (c.history ++ ts.map mkMetrics).drop
          ((c.history.length + ts.length) - c.histSize) ∧
      (c.ticks ts).histSize = c.histSize := by
  induction ts with
  | nil =>
    intro c hc
    refine ⟨?_, rfl⟩
    simp only [Collector.ticks, List.foldl_nil, List.map_nil, List.append_nil,
      List.length_nil, Nat.add_zero]
    rw [Nat.sub_eq_zero_of_le hc, List.drop_zero]
  | cons t ts ih =>
    intro c hc
    have hstep : c.ticks (t :: ts) = (c.collectStep t).ticks ts := rfl
    set d := c.history.length + 1 - c.histSize with hd
    have hhist : (c.collectStep t).history =
        (c.history ++ [mkMetrics t]).drop d := by
      rw [collectStep_history, histStep_eq_drop _ _ _ hc]
    have hlen : (c.collectStep t).history.length = c.history.length + 1 - d := by
      rw [hhist, List.length_drop]
      simp [List.length_append]
    have hle : (c.collectStep t).history.length ≤ (c.collectStep t).histSize := by
      rw [hlen, collectStep_histSize]; omega
    obtain ⟨ih1, ih2⟩ := ih (c.collectStep t) hle
    rw [hstep]
    refine ⟨?_, by rw [ih2, collectStep_histSize]⟩
    rw [ih1, hlen, collectStep_histSize, hhist]
    have hd1 : d ≤ (c.history ++ [mkMetrics t]).length := by
      simp only [List.length_append, List.length_singleton]; omega
    rw [← List.drop_append_of_le_length hd1, List.drop_drop]
    have harr : (c.history ++ [mkMetrics t]) ++ ts.map mkMetrics =
        c.history ++ (t :: ts).map mkMetrics := by
      simp [List.append_assoc]
    rw [harr]
    congr 1
    simp only [List.length_cons, List.length_map]
    omega

/-- C1: For every capacity `H` and every run of `H + k` collection ticks
from a fresh collector, the history never holds more than `H` entries at any
point of the run, and at the end `GetHistory` is exactly the last `H`
collected snapshots in append order: the first `k` (the oldest) have been
evicted. -/
theorem history_capacity (hs : Bool) (iv H k : Nat) (ts : List TickInput)
    (hlen : ts.length = H + k) :
    (∀ n : Nat, ((NewCollector hs iv H).ticks (ts.take n)).history.length ≤ H) ∧
    ((NewCollector hs iv H).ticks ts).GetHistory = (ts.map mkMetrics).drop k := by
  have hfresh : (NewCollector hs iv H).history.length ≤ (NewCollector hs iv H).histSize := by
    simp [NewCollector]
  constructor
  · intro n
    obtain ⟨h1, _⟩ := ticks_history (ts.take n) (NewCollector hs iv H) hfresh
    rw [h1, List.length_drop]
    simp only [NewCollector_history, NewCollector_histSize, List.nil_append,
      List.length_nil, Nat.zero_add, List.length_map]
    omega
  · obtain ⟨h1, _⟩ := ticks_history ts (NewCollector hs iv H) hfresh
    rw [Collector.GetHistory, h1, NewCollector_history, NewCollector_histSize,
      List.nil_append]
    congr 1
    simp only [List.length_nil, Nat.zero_add, hlen]
    omega

/-- Witness for `history_capacity`: three failing ticks against capacity 2
evict exactly the first snapshot. -/
theorem history_capacity_witness :
    ((NewCollector false 1 2).ticks [failTick 0, failTick 1, failTick 2]).GetHistory =
      ([failTick 0, failTick 1, failTick 2].map mkMetrics).drop 1 :=
  (history_capacity false 1 2 1 [failTick 0, failTick 1, failTick 2] rfl).2

theorem histStep_getLast? (hSize : Nat) (h : List AllMetrics) (m : AllMetrics)
    (hpos : 0 < hSize) :
    (histStep hSize h m).getLast? = some m := by
  simp only [histStep]
  rcases Nat.lt_or_ge hSize (h ++ [m]).length with hc | hc
  · rw [if_pos hc]
    cases h with
    | nil => simp only [List.nil_append, List.length_singleton] at hc; omega
    | cons a h2 =>
      rw [List.cons_append, List.drop_succ_cons, List.drop_zero]
      exact List.getLast?_concat h2
  · rw [if_neg (Nat.not_lt.mpr hc)]
    exact List.getLast?_concat h

/-- C9: One collection tick with failing sub-collections: each failing
section is left at its Go zero value, yet the snapshot is still timestamped,
still appended to the history (it becomes the latest snapshot), still
persisted when a storage backend is present, and still delivered to every
subscriber whose channel has room. `collectStep` is a total function into
`Collector`, so a sub-collection failure never reaches the scheduler loop. -/
theorem collect_subfailure_defaults (c : Collector) (t : TickInput)
    (hpos : 0 < c.histSize) :
    (∀ e, t.sysR = .error e → (mkMetrics t).system = SystemInfo.zero) ∧
    (∀ e, t.cpuR = .error e → (mkMetrics t).cpu = CPUInfo.zero) ∧
    (∀ e, t.memR = .error e → (mkMetrics t).memory = MemoryInfo.zero) ∧
    (∀ e, t.diskR = .error e → (mkMetrics t).disks = []) ∧
    (∀ e, t.netR = .error e → (mkMetrics t).network = []) ∧
    (mkMetrics t).timestamp = t.now ∧
    (c.collectStep t).GetLatest = mkMetrics t ∧
    (c.hasStorage = true →
      (c.collectStep t).stored = c.stored ++ [toEntry (mkMetrics t)]) ∧
    (∀ (i : Nat) (s : MetricsSub), c.subscribers[i]? = some s →
      s.queue.length < s.cap →
      (c.collectStep t).subscribers[i]? =
        some { s with queue := s.queue ++ [mkMetrics t] }) := by
  refine ⟨?_, ?_, ?_, ?_, ?_, rfl, ?_, ?_, ?_⟩
  · intro e he; simp [mkMetrics, he]
  · intro e he; simp [mkMetrics, he]
  · intro e he; simp [mkMetrics, he]
  · intro e he; simp [mkMetrics, he]
  · intro e he; simp [mkMetrics, he]
  · have hl : (c.collectStep t).history.getLast? = some (mkMetrics t) := by
      rw [collectStep_history]
      exact histStep_getLast? _ _ _ hpos
    simp [Collector.GetLatest, hl]
  · intro hs
    simp [Collector.collectStep, hs]
  · intro i s hi hroom
    have hsub : (c.collectStep t).subscribers =
        c.subscribers.map (fun s => s.trySend (mkMetrics t)) := rfl
    rw [hsub, List.getElem?_map, hi]
    simp [MetricsSub.trySend, hroom]

/-- Witness for `collect_subfailure_defaults`: with every probe failing, the
tick still lands a timestamped, zero-sectioned snapshot as the latest one. -/
theorem collect_subfailure_defaults_witness :
    (sampleCollector.collectStep (failTick 7)).GetLatest = mkMetrics (failTick 7) ∧
    (mkMetrics (failTick 7)).system = SystemInfo.zero :=
  ⟨(collect_subfailure_defaults sampleCollector (failTick 7)
      (by decide)).2.2.2.2.2.2.1,
   (collect_subfailure_defaults sampleCollector (failTick 7)
      (by decide)).1 "probe" rfl⟩

/-- C10: A collector whose history is empty returns the zero-valued
snapshot from `GetLatest` — every field at its zero default, including a
zero timestamp — rather than failing. -/
theorem getLatest_empty (c : Collector) (h : c.history = []) :
    c.GetLatest = AllMetrics.zero ∧ c.GetLatest.timestamp = 0 := by
  have hz : c.GetLatest = AllMetrics.zero := by
    simp [Collector.GetLatest, h]
  exact ⟨hz, by rw [hz]; rfl⟩

/-- Witness for `getLatest_empty`: a freshly constructed collector. -/
theorem getLatest_empty_witness :
    (NewCollector false 1 5).GetLatest = AllMetrics.zero :=
  (getLatest_empty (NewCollector false 1 5) rfl).1

/-! ## Theorems: hub broadcast and client-set invariant -/

theorem HClient.trySend_room (c : HClient) (msg : List Nat)
    (hc : c.sendQ.length < c.cap) :
    c.trySend msg = ({ c with sendQ := c.sendQ ++ [msg] }, true) := by
  simp [HClient.trySend, hc]

theorem HClient.trySend_full (c : HClient) (msg : List Nat)
    (hc : ¬ c.sendQ.length < c.cap) :
    c.trySend msg = (c, false) := by
  simp [HClient.trySend, hc]

theorem HClient.trySend_ptr (c : HClient) (msg : List Nat) :
    (c.trySend msg).1.ptr = c.ptr := by
  by_cases hc : c.sendQ.length < c.cap
  · rw [HClient.trySend_room c msg hc]
  · rw [HClient.trySend_full c msg hc]

/-- C2: A broadcast never removes or blocks on a client and closes no
channel: every registered client whose queue has room receives the message
(appended to its queue), while a client whose queue is full is skipped — its
queue is unchanged — and its pointer is scheduled for asynchronous
unregistration; everything scheduled is a registered client with a full
queue. -/
theorem broadcast_sheds_slow (h : HubState) (msg : List Nat) :
    (h.broadcastStep msg).1.clients.length = h.clients.length ∧
    (h.broadcastStep msg).1.closedChans = h.closedChans ∧
    (∀ (i : Nat) (c : HClient), h.clients[i]? = some c →
      (c.sendQ.length < c.cap →
        (h.broadcastStep msg).1.clients[i]? =
          some { c with sendQ := c.sendQ ++ [msg] }) ∧
      (¬ c.sendQ.length < c.cap →
        (h.broadcastStep msg).1.clients[i]? = some c ∧
        c.ptr ∈ (h.broadcastStep msg).2)) ∧
    (∀ p ∈ (h.broadcastStep msg).2,
      ∃ c ∈ h.clients, c.ptr = p ∧ ¬ c.sendQ.length < c.cap) := by
  have hcl : (h.broadcastStep msg).1.clients =
      h.clients.map (fun c => (c.trySend msg).1) := by
    simp [HubState.broadcastStep]
  refine ⟨?_, rfl, ?_, ?_⟩
  · rw [hcl, List.length_map]
  · intro i c hi
    constructor
    · intro hroom
      rw [hcl, List.getElem?_map, hi]
      simp only [Option.map_some']
      rw [HClient.trySend_room c msg hroom]
    · intro hfull
      refine ⟨?_, ?_⟩
      · rw [hcl, List.getElem?_map, hi]
        simp only [Option.map_some']
        rw [HClient.trySend_full c msg hfull]
      · have hmem : c ∈ h.clients := by
          have := List.getElem?_mem hi
          exact this
        have h1 : c.trySend msg ∈ h.clients.map (fun c => c.trySend msg) :=
          List.mem_map_of_mem _ hmem
        have h2 : c.trySend msg ∈
            (h.clients.map (fun c => c.trySend msg)).filter
              (fun r => r.2 = false) := by
          rw [List.mem_filter]
          refine ⟨h1, ?_⟩
          rw [HClient.trySend_full c msg hfull]
          simp
        have h3 : (c.trySend msg).1.ptr ∈ (h.broadcastStep msg).2 := by
          simp only [HubState.broadcastStep]
          exact List.mem_map_of_mem _ h2
        rw [HClient.trySend_full c msg hfull] at h3
        exact h3
  · intro p hp
    simp only [HubState.broadcastStep] at hp
    obtain ⟨r, hr, hrp⟩ := List.mem_map.mp hp
    rw [List.mem_filter] at hr
    obtain ⟨hr1, hr2⟩ := hr
    obtain ⟨c, hcmem, hcr⟩ := List.mem_map.mp hr1
    refine ⟨c, hcmem, ?_, ?_⟩
    · rw [← hrp, ← hcr, HClient.trySend_ptr]
    · intro hroom
      rw [← hcr, HClient.trySend_room c msg hroom] at hr2
      simp at hr2

/-- Witness for `broadcast_sheds_slow` at `sampleHub`: the client with room
receives the message, the full one is scheduled for unregistration. -/
theorem broadcast_sheds_slow_witness :
    (sampleHub.broadcastStep [7]).1.clients[1]? =
      some ⟨2, "fast", [[7]], 4⟩ ∧
    (1 : Nat) ∈ (sampleHub.broadcastStep [7]).2 := by
  have t := broadcast_sheds_slow sampleHub [7]
  constructor
  · exact (t.2.2.1 1 ⟨2, "fast", [], 4⟩ (by decide)).1 (by decide)
  · exact ((t.2.2.1 0 ⟨1, "slow", [[0]], 1⟩ (by decide)).2 (by decide)).2

theorem any_ptr_eq_true (l : List HClient) (p : Nat) :
    l.any (fun x => x.ptr = p) = true ↔ ∃ x ∈ l, x.ptr = p := by
  simp [List.any_eq_true]

theorem registerStep_present (h : HubState) (c : HClient)
    (hb : h.clients.any (fun x => x.ptr = c.ptr) = true) :
    h.registerStep c = h := by
  simp [HubState.registerStep, hb]

theorem registerStep_absent (h : HubState) (c : HClient)
    (hb : h.clients.any (fun x => x.ptr = c.ptr) = false) :
    h.registerStep c = { h with clients := h.clients ++ [c] } := by
  simp [HubState.registerStep, hb]

theorem unregisterStep_present (h : HubState) (p : Nat)
    (hb : h.clients.any (fun x => x.ptr = p) = true) :
    h.unregisterStep p =
      ⟨h.clients.filter (fun x => x.ptr ≠ p), h.closedChans ++ [p]⟩ := by
  simp [HubState.unregisterStep, hb]

theorem unregisterStep_absent (h : HubState) (p : Nat)
    (hb : h.clients.any (fun x => x.ptr = p) = false) :
    h.unregisterStep p = h := by
  simp [HubState.unregisterStep, hb]

/-- C7: The hub's client-set invariant: a client in the set always has an
open channel — preserved by registration of a fresh client, by
unregistration, and by broadcast; unregistering a client whose pointer is
absent is exactly a no-op (so repeated unregistration, as with the deferred
slow-client drop, is safe), while unregistering a present client removes it
and closes its channel in the same step. -/
theorem hub_client_set_inv (h : HubState) (c : HClient) (p : Nat)
    (msg : List Nat) :
    (h.ChanInv → c.ptr ∉ h.closedChans → (h.registerStep c).ChanInv) ∧
    (h.ChanInv → (h.unregisterStep p).ChanInv) ∧
    (h.ChanInv → ((h.broadcastStep msg).1).ChanInv) ∧
    ((∀ x ∈ h.clients, x.ptr ≠ p) → h.unregisterStep p = h) ∧
    ((∃ x ∈ h.clients, x.ptr = p) →
      (∀ x ∈ (h.unregisterStep p).clients, x.ptr ≠ p) ∧
      (h.unregisterStep p).closedChans = h.closedChans ++ [p]) ∧
    ((h.unregisterStep p).unregisterStep p = h.unregisterStep p) := by
  refine ⟨?_, ?_, ?_, ?_, ?_, ?_⟩
  · intro hinv hfresh
    rcases Bool.eq_false_or_eq_true (h.clients.any (fun x => x.ptr = c.ptr)) with
      hb | hb
    · rw [registerStep_present h c hb]; exact hinv
    · rw [registerStep_absent h c hb]
      intro x hx
      rcases List.mem_append.mp hx with hx1 | hx2
      · exact hinv x hx1
      · rw [List.mem_singleton.mp hx2]; exact hfresh
  · intro hinv
    rcases Bool.eq_false_or_eq_true (h.clients.any (fun x => x.ptr = p)) with
      hb | hb
    · rw [unregisterStep_present h p hb]
      intro x hx
      rw [List.mem_filter] at hx
      obtain ⟨hx1, hx2⟩ := hx
      simp only [List.mem_append, List.mem_singleton]
      push_neg
      refine ⟨hinv x hx1, ?_⟩
      simpa using hx2
    · rw [unregisterStep_absent h p hb]; exact hinv
  · intro hinv
    intro x hx
    have hcl : (h.broadcastStep msg).1.clients =
        h.clients.map (fun c => (c.trySend msg).1) := by
      simp [HubState.broadcastStep]
    rw [hcl] at hx
    obtain ⟨y, hy, hyx⟩ := List.mem_map.mp hx
    have hch : (h.broadcastStep msg).1.closedChans = h.closedChans := rfl
    rw [hch, ← hyx, HClient.trySend_ptr]
    exact hinv y hy
  · intro habs
    refine unregisterStep_absent h p ?_
    rw [Bool.eq_false_iff]
    intro hb
    obtain ⟨x, hx, hxp⟩ := (any_ptr_eq_true h.clients p).mp hb
    exact habs x hx hxp
  · intro hpres
    rw [unregisterStep_present h p ((any_ptr_eq_true h.clients p).mpr hpres)]
    constructor
    · intro x hx
      rw [List.mem_filter] at hx
      simpa using hx.2
    · rfl
  · rcases Bool.eq_false_or_eq_true (h.clients.any (fun x => x.ptr = p)) with
      hb | hb
    · rw [unregisterStep_present h p hb]
      refine unregisterStep_absent _ p ?_
      rw [Bool.eq_false_iff]
      intro hb2
      obtain ⟨x, hx, hxp⟩ := (any_ptr_eq_true _ p).mp hb2
      rw [List.mem_filter] at hx
      have hne := hx.2
      simp [hxp] at hne
    · rw [unregisterStep_absent h p hb, unregisterStep_absent h p hb]
/-- Witness for `hub_client_set_inv` at `sampleHub`: unregistering an absent
pointer changes nothing; unregistering a present one closes its channel. -/
theorem hub_client_set_inv_witness :
    sampleHub.unregisterStep 3 = sampleHub ∧
    (sampleHub.unregisterStep 1).closedChans = [1] := by
  constructor
  · exact (hub_client_set_inv sampleHub ⟨9, "w", [], 1⟩ 3 []).2.2.2.1 (by decide)
  · exact ((hub_client_set_inv sampleHub ⟨9, "w", [], 1⟩ 1 []).2.2.2.2.1
      ⟨⟨1, "slow", [[0]], 1⟩, by decide, rfl⟩).2

/-! ## Theorems: heartbeat and deadline discipline -/

/-- C8 counterexample: After connecting at time 0, a successful data
read at time 50 leaves the read deadline at 60: `readPump` does NOT refresh
the deadline on a successful read, contrary to the claim that it is
refreshed on every successful read (which would move it to 110). -/
theorem read_deadline_not_refreshed_on_read :
    (readPumpRun 0 [ReadEv.dataRead 50]).readDeadline = 60 ∧
    (readPumpRun 0 [ReadEv.dataRead 50]).readDeadline ≠
      50 + readDeadlineSeconds := by
  constructor
  · rfl
  · decide

/-- C8 amended: The server pings every 30 seconds from `writePump`'s
ticker; the 60-second read deadline is set when the pump starts and is
refreshed on every received pong — but not on an ordinary successful read —
and a read failure (which is how deadline expiry surfaces) tears the
connection down: the pump exits, unregisters the client and closes the
connection. -/
theorem ws_heartbeat_discipline (s : ConnState) (t t0 n : Nat) :
    pingIntervalSeconds = 30 ∧
    readDeadlineSeconds = 60 ∧
    writePumpOnTick t = (WsFrame.ping, t + 10) ∧
    writePumpTickTime t0 (n + 1) - writePumpTickTime t0 n = 30 ∧
    (readPumpInit t).readDeadline = t + 60 ∧
    (readPumpStep s (ReadEv.pong t)).readDeadline = t + 60 ∧
    readPumpStep s (ReadEv.dataRead t) = s ∧
    (readPumpStep s (ReadEv.readError t)).unregistered = true ∧
    (readPumpStep s (ReadEv.readError t)).connClosed = true := by
  refine ⟨rfl, rfl, rfl, ?_, rfl, rfl, rfl, rfl, rfl⟩
  simp only [writePumpTickTime, pingIntervalSeconds]
  omega

/-! ## Theorems: terminal session manager -/

theorem CreateSession_at_capacity (m : TManager) (env : ShellEnv)
    (spawn : String → String → Nat → Nat → Except TermErr TSession)
    (id shell : String) (cols rows : Nat)
    (hcap : m.maxSessions ≤ m.sessions.length) :
    m.CreateSession env spawn id shell cols rows =
      (.error .maxSessionsReached, m) := by
  simp [TManager.CreateSession, hcap]

theorem CreateSession_duplicate (m : TManager) (env : ShellEnv)
    (spawn : String → String → Nat → Nat → Except TermErr TSession)
    (id shell : String) (cols rows : Nat)
    (hcap : m.sessions.length < m.maxSessions)
    (hdup : (m.sessions.lookup id).isSome = true) :
    m.CreateSession env spawn id shell cols rows =
      (.error .sessionAlreadyExists, m) := by
  simp [TManager.CreateSession, Nat.not_le.mpr hcap, hdup]

theorem CreateSession_denied (m : TManager) (env : ShellEnv)
    (spawn : String → String → Nat → Nat → Except TermErr TSession)
    (id shell : String) (cols rows : Nat)
    (hcap : m.sessions.length < m.maxSessions)
    (hdup : (m.sessions.lookup id).isSome = false)
    (hsh : m.IsShellAllowed
      (if shell = "" then m.GetDefaultShell env else shell) = false) :
    m.CreateSession env spawn id shell cols rows =
      (.error (.shellNotAllowed
        (if shell = "" then m.GetDefaultShell env else shell)), m) := by
  simp [TManager.CreateSession, Nat.not_le.mpr hcap, hdup, hsh]

theorem CreateSession_spawn_error (m : TManager) (env : ShellEnv)
    (spawn : String → String → Nat → Nat → Except TermErr TSession)
    (id shell : String) (cols rows : Nat)
    (hcap : m.sessions.length < m.maxSessions)
    (hdup : (m.sessions.lookup id).isSome = false)
    (hsh : m.IsShellAllowed
      (if shell = "" then m.GetDefaultShell env else shell) = true)
    (e : TermErr)
    (hspawn : spawn id (if shell = "" then m.GetDefaultShell env else shell)
      cols rows = .error e) :
    m.CreateSession env spawn id shell cols rows = (.error e, m) := by
  simp [TManager.CreateSession, Nat.not_le.mpr hcap, hdup, hsh, hspawn]

theorem CreateSession_ok (m : TManager) (env : ShellEnv)
    (spawn : String → String → Nat → Nat → Except TermErr TSession)
    (id shell : String) (cols rows : Nat)
    (hcap : m.sessions.length < m.maxSessions)
    (hdup : (m.sessions.lookup id).isSome = false)
    (hsh : m.IsShellAllowed
      (if shell = "" then m.GetDefaultShell env else shell) = true)
    (s : TSession)
    (hspawn : spawn id (if shell = "" then m.GetDefaultShell env else shell)
      cols rows = .ok s) :
    m.CreateSession env spawn id shell cols rows =
      (.ok s, { m with sessions := m.sessions ++ [(id, s)] }) := by
  simp [TManager.CreateSession, Nat.not_le.mpr hcap, hdup, hsh, hspawn]

theorem removeKey_length_le (l : List (String × TSession)) (id : String) :
    (removeKey l id).length ≤ l.length :=
  List.length_filter_le _ _

theorem removeKey_length_lt (id : String) :
    ∀ l : List (String × TSession), (l.lookup id).isSome = true →
      (removeKey l id).length < l.length := by
  intro l
  induction l with
  | nil => intro h; simp [List.lookup] at h
  | cons kv rest ih =>
    obtain ⟨k, v⟩ := kv
    intro h
    by_cases hk : k = id
    · have hf : removeKey ((k, v) :: rest) id = removeKey rest id := by
        simp [removeKey, List.filter_cons, hk]
      rw [hf]
      exact Nat.lt_succ_of_le (removeKey_length_le rest id)
    · have hbeq : (id == k) = false := beq_eq_false_iff_ne.mpr (Ne.symm hk)
      have h2 : (rest.lookup id).isSome = true := by
        simpa only [List.lookup, hbeq] using h
      have hf : removeKey ((k, v) :: rest) id = (k, v) :: removeKey rest id := by
        simp [removeKey, List.filter_cons, hk]
      rw [hf, List.length_cons, List.length_cons]
      exact Nat.succ_lt_succ (ih h2)

theorem removeKey_lookup_none (id : String) :
    ∀ l : List (String × TSession), (removeKey l id).lookup id = none := by
  intro l
  induction l with
  | nil => rfl
  | cons kv rest ih =>
    obtain ⟨k, v⟩ := kv
    by_cases hk : k = id
    · have hf : removeKey ((k, v) :: rest) id = removeKey rest id := by
        simp [removeKey, List.filter_cons, hk]
      rw [hf]; exact ih
    · have hbeq : (id == k) = false := beq_eq_false_iff_ne.mpr (Ne.symm hk)
      have hf : removeKey ((k, v) :: rest) id = (k, v) :: removeKey rest id := by
        simp [removeKey, List.filter_cons, hk]
      rw [hf]
      simpa only [List.lookup, hbeq] using ih

theorem CloseSession_absent (m : TManager) (id : String)
    (h : m.sessions.lookup id = none) :
    m.CloseSession id = ((some .sessionNotFound, m), none) := by
  simp [TManager.CloseSession, h]

theorem CloseSession_present (m : TManager) (id : String) (s : TSession)
    (h : m.sessions.lookup id = some s) :
    m.CloseSession id =
      ((none, { m with sessions := removeKey m.sessions id }),
       some s.close.2) := by
  simp [TManager.CloseSession, h]

/-- C3 counterexample: In a manager at capacity whose single live session
has the requested id, `CreateSession` fails with `maximum sessions reached`,
not `session already exists`: the capacity check precedes the duplicate
check, so a live duplicate id does not produce `DuplicateSession` when the
manager is also at capacity. -/
theorem capacity_preempts_duplicate :
    (sampleManager.sessions.lookup "s1").isSome = true ∧
    (sampleManager.CreateSession emptyEnv okSpawn "s1" "bash" 80 24).1 =
      .error .maxSessionsReached ∧
    (sampleManager.CreateSession emptyEnv okSpawn "s1" "bash" 80 24).1 ≠
      .error .sessionAlreadyExists := by
  refine ⟨by decide, by decide, by decide⟩

/-- C3 amended: `CreateSession` fails with `CapacityExceeded` whenever
the live count is at least the maximum; it fails with `DuplicateSession`
when the id is live *and the manager is under capacity* (the capacity check
runs first); in either failure the registry is returned unchanged; the live
count never exceeds the maximum; and when the manager is exactly at
capacity, closing one live session makes a `CreateSession` with a fresh id,
an allowed shell and a successful spawn succeed. -/
theorem create_session_limits (m : TManager) (env : ShellEnv)
    (spawn : String → String → Nat → Nat → Except TermErr TSession)
    (id shell : String) (cols rows : Nat) :
    (m.maxSessions ≤ m.sessions.length →
      m.CreateSession env spawn id shell cols rows =
        (.error .maxSessionsReached, m)) ∧
    (m.sessions.length < m.maxSessions →
      (m.sessions.lookup id).isSome = true →
      m.CreateSession env spawn id shell cols rows =
        (.error .sessionAlreadyExists, m)) ∧
    (m.sessions.length ≤ m.maxSessions →
      ((m.CreateSession env spawn id shell cols rows).2).sessions.length ≤
        m.maxSessions) ∧
    (∀ id2 s0, m.sessions.lookup id2 = some s0 →
      m.sessions.length = m.maxSessions →
      ((((m.CloseSession id2).1.2).sessions.lookup id).isSome = false) →
      m.IsShellAllowed
        (if shell = "" then m.GetDefaultShell env else shell) = true →
      ∀ s, spawn id (if shell = "" then m.GetDefaultShell env else shell)
        cols rows = .ok s →
      (((m.CloseSession id2).1.2).CreateSession env spawn id shell
        cols rows).1 = .ok s) := by
  refine ⟨?_, ?_, ?_, ?_⟩
  · intro hcap
    exact CreateSession_at_capacity m env spawn id shell cols rows hcap
  · intro hcap hdup
    exact CreateSession_duplicate m env spawn id shell cols rows hcap hdup
  · intro hle
    rcases Nat.lt_or_ge m.sessions.length m.maxSessions with hlt | hge
    · rcases Bool.eq_false_or_eq_true ((m.sessions.lookup id).isSome) with
        hdup | hdup
      · rw [CreateSession_duplicate m env spawn id shell cols rows hlt hdup]
        exact hle
      · rcases Bool.eq_false_or_eq_true (m.IsShellAllowed
          (if shell = "" then m.GetDefaultShell env else shell)) with hsh | hsh
        · rcases hspawn : spawn id
            (if shell = "" then m.GetDefaultShell env else shell) cols rows with
            e | s
          · rw [CreateSession_spawn_error m env spawn id shell cols rows hlt
              hdup hsh e hspawn]
            exact hle
          · rw [CreateSession_ok m env spawn id shell cols rows hlt hdup hsh
              s hspawn]
            simp only [List.length_append, List.length_cons, List.length_nil]
            omega
        · rw [CreateSession_denied m env spawn id shell cols rows hlt hdup hsh]
          exact hle
    · rw [CreateSession_at_capacity m env spawn id shell cols rows hge]
      exact hle
  · intro id2 s0 hlook hlen hfresh hsh s hspawn
    have hclose : (m.CloseSession id2).1.2 =
        { m with sessions := removeKey m.sessions id2 } := by
      rw [CloseSession_present m id2 s0 hlook]
    rw [hclose]
    have hlt : (removeKey m.sessions id2).length < m.maxSessions := by
      have := removeKey_length_lt id2 m.sessions (by rw [hlook]; rfl)
      omega
    rw [hclose] at hfresh
    have hres := CreateSession_ok { m with sessions := removeKey m.sessions id2 }
      env spawn id shell cols rows hlt hfresh hsh s hspawn
    rw [hres]

/-- Witness for `create_session_limits` at `sampleManager`: a create at
capacity fails, and after closing the one live session a fresh create
succeeds. -/
theorem create_session_limits_witness :
    sampleManager.CreateSession emptyEnv okSpawn "s2" "bash" 80 24 =
      (.error .maxSessionsReached, sampleManager) ∧
    (((sampleManager.CloseSession "s1").1.2).CreateSession emptyEnv okSpawn
      "s2" "bash" 80 24).1 =
      .ok ⟨"s2", "bash", true, 0, ⟨[], [], 0, 0, false⟩, false⟩ := by
  have t := create_session_limits sampleManager emptyEnv okSpawn "s2" "bash" 80 24
  exact ⟨t.1 (by decide),
    t.2.2.2 "s1" sampleSession (by decide) (by decide) (by decide) (by decide)
      ⟨"s2", "bash", true, 0, ⟨[], [], 0, 0, false⟩, false⟩ (by decide)⟩

/-- C4 counterexample: Closing the same session twice through the
manager: the first close returns no error, but the second one returns
`session not found` — an error is surfaced, contrary to the claim that the
second close surfaces no error. -/
theorem double_close_second_errors :
    (sampleManager.CloseSession "s1").1.1 = none ∧
    (((sampleManager.CloseSession "s1").1.2).CloseSession "s1").1.1 =
      some TermErr.sessionNotFound := by
  refine ⟨by decide, by decide⟩

/-- C4 amended: Closing twice is effect-free the second time:
`Session.Close` on an already-closed session returns `nil` and changes
nothing — in particular it does not kill the process again — and any
session is closed after one `Close`; a second direct `Manager.CloseSession`
finds no session, returns `SessionNotFound`, leaves the registry unchanged
and touches no session; after a successful `CloseSession` the id is no
longer registered, so the teardown path's close hits exactly that branch. -/
theorem close_session_idempotent (m : TManager) (id : String) (s : TSession) :
    (s.closed = true → s.close = (none, s)) ∧
    ((s.close.2).close = (none, s.close.2)) ∧
    (s.close.2).closed = true ∧
    (m.sessions.lookup id = none →
      m.CloseSession id = ((some .sessionNotFound, m), none)) ∧
    (∀ s0, m.sessions.lookup id = some s0 →
      ((m.CloseSession id).1.2).sessions.lookup id = none ∧
      (m.CloseSession id).1.1 = none) := by
  have hclosed : ∀ t : TSession, t.closed = true → t.close = (none, t) := by
    intro t ht
    simp [TSession.close, ht]
  have hflag : (s.close.2).closed = true := by
    by_cases hc : s.closed
    · simp [TSession.close, hc]
    · simp [TSession.close, hc]
  refine ⟨hclosed s, hclosed _ hflag, hflag, ?_, ?_⟩
  · intro h
    exact CloseSession_absent m id h
  · intro s0 h
    rw [CloseSession_present m id s0 h]
    exact ⟨removeKey_lookup_none id m.sessions, rfl⟩

/-- Witness for `close_session_idempotent`: a second `Close` on a closed
session is a complete no-op, and closing an unknown id reports
`SessionNotFound` with the manager unchanged. -/
theorem close_session_idempotent_witness :
    ({ sampleSession with closed := true } : TSession).close =
      (none, { sampleSession with closed := true }) ∧
    sampleManager.CloseSession "nope" =
      ((some TermErr.sessionNotFound, sampleManager), none) :=
  ⟨(close_session_idempotent sampleManager "nope"
      { sampleSession with closed := true }).1 rfl,
   (close_session_idempotent sampleManager "nope"
      { sampleSession with closed := true }).2.2.2.1 (by decide)⟩

/-- C5: Shell resolution: a `CreateSession` with an empty shell string
behaves exactly as one called with the configured default shell; a shell is
allowed precisely when some allow-list entry matches it exactly or matches
its base name; and when the resolved shell matches no allow-list entry the
call fails with `shell not allowed` and the manager is unchanged — no
session is created. -/
theorem shell_resolution (m : TManager) (env : ShellEnv)
    (spawn : String → String → Nat → Nat → Except TermErr TSession)
    (id shell : String) (cols rows : Nat) :
    (m.CreateSession env spawn id "" cols rows =
      m.CreateSession env spawn id (m.GetDefaultShell env) cols rows) ∧
    (m.IsShellAllowed shell = true ↔
      ∃ a ∈ m.allowedShells, shell = a ∨ baseNameOf shell = a) ∧
    (m.sessions.length < m.maxSessions →
      (m.sessions.lookup id).isSome = false →
      m.IsShellAllowed
        (if shell = "" then m.GetDefaultShell env else shell) = false →
      m.CreateSession env spawn id shell cols rows =
        (.error (.shellNotAllowed
          (if shell = "" then m.GetDefaultShell env else shell)), m)) := by
  refine ⟨?_, ?_, ?_⟩
  · simp only [TManager.CreateSession, if_true, ite_self]
  · simp [TManager.IsShellAllowed, List.any_eq_true]
  · intro hcap hdup hsh
    exact CreateSession_denied m env spawn id shell cols rows hcap hdup hsh

/-- Witness for `shell_resolution`: `zsh` is not on `roomManager`'s
allow-list, so the create is rejected without touching the registry. -/
theorem shell_resolution_witness :
    roomManager.CreateSession unixEnv okSpawn "t1" "zsh" 80 24 =
      (.error (.shellNotAllowed "zsh"), roomManager) ∧
    roomManager.CreateSession unixEnv okSpawn "t1" "" 80 24 =
      roomManager.CreateSession unixEnv okSpawn "t1"
        (roomManager.GetDefaultShell unixEnv) 80 24 := by
  have t := shell_resolution roomManager unixEnv okSpawn "t1" "zsh" 80 24
  exact ⟨t.2.2 (by decide) (by decide) (by decide), t.1⟩

/-- C6: When a session's closed flag is set, `Read` and `Write` both
fail with the closed-session error (`io.EOF`) and return the session — and
in particular the PTY — completely untouched; and an open session whose
process has exited and whose stream is drained gets end-of-stream from
`Read` instead of blocking. -/
theorem read_write_closed (s : TSession) (bufLen : Nat) (data : List Nat) :
    (s.closed = true →
      s.read bufLen = ((0, some TermErr.eof), s) ∧
      s.write data = ((0, some TermErr.eof), s)) ∧
    (s.closed = false → s.pty.pending = [] →
      (s.read bufLen).1 = (0, some TermErr.eof)) := by
  constructor
  · intro h
    constructor
    · simp [TSession.read, TSession.IsClosed, h]
    · simp [TSession.write, TSession.IsClosed, h]
  · intro h hp
    simp [TSession.read, TSession.IsClosed, h, PtySim.read, hp]

/-- Witness for `read_write_closed`: a closed session's read returns
end-of-stream and leaves the session untouched. -/
theorem read_write_closed_witness :
    ({ sampleSession with closed := true } : TSession).read 16 =
      ((0, some TermErr.eof), { sampleSession with closed := true }) :=
  ((read_write_closed { sampleSession with closed := true } 16 [1]).1 rfl).1

end Nebula
